import Mathlib

/-!
Shallow embedding of `src/app/src/layouts/SidebarLayout.tsx`.

The component reads three pieces of ambient state that live outside this
file in the real application; they become explicit parameters here:
  * `filter` — the search string from `useSearch()`;
  * `config.sidebar.order` — the optional group ordering from `src/config`;
  * the navigation map produced by `nav(version)`.

JavaScript string primitives (`trim`, `toLowerCase`, `includes`, `join`,
`startsWith`) are embedded as executable functions over `List Char` so that
concrete instances reduce inside the kernel.
-/

namespace Sidebar

/-- Whitespace recognised by JavaScript `String.prototype.trim` (the ASCII
part, which is all the proofs instantiate). -/
def isWs (c : Char) : Bool :=
  c == ' ' || c == '\t' || c == '\n' || c == '\r' || c == '\x0b' || c == '\x0c'

/-- Embedding of JavaScript `s.trim()`. -/
def jsTrim (s : String) : String :=
  String.mk (((s.toList.dropWhile isWs).reverse.dropWhile isWs).reverse)

/-- Embedding of JavaScript `s.toLowerCase()`. -/
def jsToLower (s : String) : String :=
  String.mk (s.toList.map Char.toLower)

/-- Check that `sub` occurs at the very start of `s` (character lists). -/
def firstMatches : List Char → List Char → Bool
  | [], _ => true
  | _ :: _, [] => false
  | a :: as, b :: bs => a == b && firstMatches as bs

/-- Check that `sub` occurs somewhere inside `s` (character lists). -/
def hasSubList (sub : List Char) : List Char → Bool
  | [] => sub.isEmpty
  | c :: tl => firstMatches sub (c :: tl) || hasSubList sub tl

/-- Embedding of JavaScript `s.includes(sub)`. -/
def jsIncludes (s sub : String) : Bool :=
  hasSubList sub.toList s.toList

/-- Embedding of JavaScript `s.startsWith(pre)` (argument order: the string
first, then the candidate leading segment). -/
def jsStartsWith (s leading : String) : Bool :=
  firstMatches leading.toList s.toList

/-- Embedding of JavaScript `array.join(sep)` for an array of strings. -/
def joinSep (sep : String) : List String → String
  | [] => ""
  | [s] => s
  | s :: rest => s ++ sep ++ joinSep sep rest

/-- Embedding of radash `sift` at the type it is used at in this file:
it drops the falsy entries of a `(string | undefined)[]`, i.e. both
`undefined` and the empty string. -/
def sift (l : List (Option String)) : List String :=
  l.filterMap fun o =>
    match o with
    | none => none
    | some s => if s = "" then none else some s

/-- Worker for `uniqueKeepFirst`: `seen` holds the values already emitted. -/
def uniqueAux (seen : List String) : List String → List String
  | [] => []
  | a :: as => if a ∈ seen then uniqueAux seen as else a :: uniqueAux (a :: seen) as

/-- Embedding of radash `unique` on a string array: keep the first
occurrence of each value, in insertion order. -/
def uniqueKeepFirst (l : List String) : List String :=
  uniqueAux [] l

/-- Frontmatter of a page as read by the sidebar: `title`, `description`,
`group` and `published` are optional strings on `p.meta`. -/
structure PageMeta where
  title : Option String
  description : Option String
  group : Option String
  published : Option String
deriving DecidableEq, Repr

/-- A page of the navigation map: its route `href` and its `meta`. -/
structure Page where
  href : String
  meta : PageMeta
deriving DecidableEq, Repr

/-- The navigation map `Nav` is a record from section keys to page arrays;
`Object.values` ignores the keys, so an association list is kept. -/
abbrev NavMap : Type := List (String × List Page)

/-- Embedding of `Object.values(n).flat()` in `filtered`. -/
def allPages (n : NavMap) : List Page :=
  (n.map Prod.snd).flatten

/-- Embedding of the match predicate inside `filtered`:
`sift([p.meta.title, p.meta.description]).join(' ').toLowerCase().includes(f)`
with `f = filter.trim().toLowerCase()`. -/
def matchesFilter (filter : String) (p : Page) : Bool :=
  jsIncludes (jsToLower (joinSep " " (sift [p.meta.title, p.meta.description])))
    (jsToLower (jsTrim filter))

/-- Embedding of `matchPages` inside `filtered`. -/
def matchPages (filter : String) (n : NavMap) : List Page :=
  (allPages n).filter (matchesFilter filter)

/-- Embedding of `groups` inside `filtered`: when `config.sidebar.order` is
set, its entries that some matching page belongs to; otherwise the sifted,
deduplicated groups of the matching pages. -/
def navGroups (order : Option (List String)) (filter : String) (n : NavMap) :
    List String :=
  match order with
  | some ord =>
      ord.filter fun g => (matchPages filter n).any fun p => p.meta.group == some g
  | none => uniqueKeepFirst (sift ((matchPages filter n).map fun p => p.meta.group))

/-- Result type of `filtered`: the `pages` record (association list built by
radash `objectify`, keyed by group) and the `groups` array. -/
structure FilteredNav where
  pages : List (String × List Page)
  groups : List String
deriving DecidableEq, Repr

/-- Embedding of the `filtered` closure of `Nav` (SidebarLayout.tsx lines
129–151), with the ambient `filter` string and `config.sidebar.order` as
explicit parameters. -/
def filtered (order : Option (List String)) (filter : String) (n : NavMap) :
    FilteredNav :=
  { pages := (navGroups order filter n).map fun g =>
      (g, (matchPages filter n).filter fun p => p.meta.group == some g)
    groups := navGroups order filter n }

/-- A page is shown in the filtered navigation when it occurs under some
group entry of the result. -/
def pageShown (fn : FilteredNav) (p : Page) : Bool :=
  fn.pages.any fun pr => pr.2.any fun q => decide (q = p)

/-- Characterisation predicate for the spec: the group value `g` is listed
for display — when `config.sidebar.order` is set it must occur there, and
otherwise it must be truthy (non-empty). -/
def GroupListed (order : Option (List String)) (g : String) : Prop :=
  match order with
  | some ord => g ∈ ord
  | none => g ≠ ""

instance (order : Option (List String)) (g : String) :
    Decidable (GroupListed order g) := by
  unfold GroupListed
  rcases order with _ | ord
  · exact inferInstanceAs (Decidable (g ≠ ""))
  · exact inferInstanceAs (Decidable (g ∈ ord))

/-- Geometry read inside the scroll effect of `Nav`: the container's
`scrollTop`, the active item's `offsetTop`, the container rect height and the
active item rect height. Rect heights are floats in the DOM, embedded as
rationals. -/
structure ScrollGeom where
  scrollTop : ℚ
  offsetTop : ℚ
  containerHeight : ℚ
  itemHeight : ℚ
deriving DecidableEq, Repr

/-- State of the refs touched by the scroll effect: the identity of the DOM
node held by `activeItemRef` and `previousActiveItemRef` (`none` = null ref),
plus the geometry. Reference identity (`===`) becomes equality of ids. -/
structure NavScrollState where
  activeItem : Option Nat
  previousActiveItem : Option Nat
  geom : ScrollGeom
deriving DecidableEq, Repr

/-- Embedding of the `useIsomorphicLayoutEffect` body of `Nav`
(SidebarLayout.tsx lines 105–125), run on each `router.pathname` change.
The source assigns `previousActiveItemRef.current = activeItemRef.current`
and then compares the two refs, so the comparison is against the value just
assigned. -/
def navScrollEffect (s : NavScrollState) : NavScrollState :=
  match s.activeItem with
  | none => s
  | some a =>
    let s1 : NavScrollState := { s with previousActiveItem := some a }
    if s1.activeItem = s1.previousActiveItem then s1
    else
      let top := s1.geom.offsetTop
      let bottom := top - s1.geom.containerHeight + s1.geom.itemHeight
      if s1.geom.scrollTop > top ∨ s1.geom.scrollTop < bottom then
        { s1 with geom := { s1.geom with
            scrollTop := top - s1.geom.containerHeight / 2 + s1.geom.itemHeight / 2 } }
      else s1

/-- The out-of-window test of the claim: `scrollTop > offsetTop` or
`scrollTop < offsetTop - containerHeight + itemHeight`. -/
def outOfView (g : ScrollGeom) : Prop :=
  g.scrollTop > g.offsetTop ∨
    g.scrollTop < g.offsetTop - g.containerHeight + g.itemHeight

instance (g : ScrollGeom) : Decidable (outOfView g) := by
  unfold outOfView
  exact inferInstanceAs (Decidable (_ ∨ _))

/-- Scroll target the claim expects for an out-of-window active item:
`offsetTop - containerHeight / 2 + itemHeight / 2`. -/
def claimedCenteredTop (g : ScrollGeom) : ℚ :=
  g.offsetTop - g.containerHeight / 2 + g.itemHeight / 2

/-- Computed style and box metrics of a DOM node, as read by `isScrollable`. -/
structure ElemStyle where
  overflowX : String
  overflowY : String
  clientHeight : Nat
  scrollHeight : Nat
  clientWidth : Nat
  scrollWidth : Nat
deriving DecidableEq, Repr

/-- A DOM element together with its ancestor chain: `root` has a null
`parentNode` (and, as for ordinary elements, no `host`), `child` has a
parent. `isBody` marks the node `document.body`. -/
inductive Elem where
  | root (style : ElemStyle) (isBody : Bool)
  | child (style : ElemStyle) (isBody : Bool) (parent : Elem)
deriving DecidableEq, Repr

def Elem.style : Elem → ElemStyle
  | .root st _ => st
  | .child st _ _ => st

def Elem.isBody : Elem → Bool
  | .root _ b => b
  | .child _ b _ => b

/-- Embedding of the inner `isScrollable` helper of
`nearestScrollableContainer`. -/
def isScrollable (st : ElemStyle) : Bool :=
  (decide (st.clientHeight < st.scrollHeight) &&
      (st.overflowY == "auto" || st.overflowY == "scroll")) ||
    (decide (st.clientWidth < st.scrollWidth) &&
      (st.overflowX == "auto" || st.overflowX == "scroll"))

/-- Embedding of the ancestor-walking loop of `nearestScrollableContainer`:
stop at `document.body` or at a scrollable node; at a node with a null
`parentNode` (and undefined `host`) the next iteration calls
`window.getComputedStyle(undefined)`, which throws a `TypeError`. -/
def nscGo : Elem → Except String Elem
  | e@(.root _ _) =>
      if e.isBody then .ok e
      else if isScrollable e.style then .ok e
      else .error "TypeError: getComputedStyle requires an Element"
  | e@(.child _ _ p) =>
      if e.isBody then .ok e
      else if isScrollable e.style then .ok e
      else nscGo p

/-- Embedding of `nearestScrollableContainer(el?: Element)`: invoked on
`undefined` the first loop test already calls
`window.getComputedStyle(undefined)` and throws. -/
def nearestScrollableContainer : Option Elem → Except String Elem
  | none => .error "TypeError: getComputedStyle requires an Element"
  | some e => nscGo e

/-- Whether `document.body` occurs in the self-or-ancestor chain, i.e. the
element is `document.body` or one of its descendants. -/
def bodyInChain : Elem → Bool
  | .root _ b => b
  | .child _ b p => b || bodyInChain p

/-- First node of the self-or-ancestor chain at which the walk stops: a
scrollable node or `document.body`, whichever comes first. -/
def firstStop : Elem → Option Elem
  | e@(.root _ _) =>
      if e.isBody || isScrollable e.style then some e else none
  | e@(.child _ _ p) =>
      if e.isBody || isScrollable e.style then some e else firstStop p

/-- One entry of `config.sidebar.links`. -/
structure LinkCfg where
  url : Option String
  icon : Option String
  label : Option String
deriving DecidableEq, Repr

/-- Props computed by `TopLevelNav` for one link. -/
structure TopItem where
  href : String
  isActive : Bool
  icon : String
  iconActive : Bool
  label : Option String
deriving DecidableEq, Repr

/-- Props for one link of `TopLevelNav`: `href` is `link.url ?? ''`,
`isActive` is `pathname.startsWith(link.url ?? '')`, the icon name is
`link?.icon ?? 'book'`, and the icon's active flag is
`pathname.startsWith(link.url!)` — when `url` is undefined, JavaScript
coerces the argument to the string "undefined". -/
def mkTopItem (pathname : String) (link : LinkCfg) : TopItem :=
  { href := link.url.getD ""
    isActive := jsStartsWith pathname (link.url.getD "")
    icon := link.icon.getD "book"
    iconActive := jsStartsWith pathname (link.url.getD "undefined")
    label := link.label }

/-- Embedding of the `.map` body of `TopLevelNav`: a `null` entry throws at
`link!.url` (reading a property of null). -/
def renderLinks (pathname : String) :
    List (Option LinkCfg) → Except String (List TopItem)
  | [] => .ok []
  | none :: _ => .error "TypeError: Cannot read properties of null"
  | some link :: rest =>
      match renderLinks pathname rest with
      | .error msg => .error msg
      | .ok items => .ok (mkTopItem pathname link :: items)

/-- Embedding of `TopLevelNav` (SidebarLayout.tsx lines 412–436). The outer
option is the presence of `config.sidebar`; when it is absent the optional
chain `config.sidebar?.links!.map(...)` short-circuits to `undefined` and
nothing renders. The inner option is the presence of `links`; when
`config.sidebar` exists but `links` is undefined, `undefined.map` throws. -/
def topLevelNav (sidebar : Option (Option (List (Option LinkCfg))))
    (pathname : String) : Except String (List TopItem) :=
  match sidebar with
  | none => .ok []
  | some none => .error "TypeError: Cannot read properties of undefined"
  | some (some links) => renderLinks pathname links

/-- Props that `SidebarLayout` passes to each of its two `Nav` instances. -/
structure NavProps where
  fallbackHref : Option String
  mobile : Bool
deriving DecidableEq, Repr

/-- View produced by `SidebarLayout`: the mobile drawer dialog's `open`
flag and handlers, and the props of the desktop and mobile `Nav`. `σ` is
the type of the surrounding application state that `setNavIsOpen`
updates. -/
structure LayoutView (σ : Type) where
  dialogOpen : Bool
  dialogOnClose : σ → σ
  closeButtonOnClick : σ → σ
  desktopNav : NavProps
  mobileNav : NavProps

/-- Embedding of `SidebarLayout` (SidebarLayout.tsx lines 535–593): the
`Dialog` gets `open={navIsOpen}` and `onClose={() => setNavIsOpen?.(false)}`;
the close button gets the same optional-call handler; the desktop `Nav` gets
only `fallbackHref` and the mobile one additionally `mobile={true}`. -/
def sidebarLayout (σ : Type) (navIsOpen : Bool)
    (setNavIsOpen : Option (Bool → σ → σ)) (fallbackHref : Option String) :
    LayoutView σ :=
  { dialogOpen := navIsOpen
    dialogOnClose := fun st =>
      match setNavIsOpen with
      | some f => f false st
      | none => st
    closeButtonOnClick := fun st =>
      match setNavIsOpen with
      | some f => f false st
      | none => st
    desktopNav := { fallbackHref := fallbackHref, mobile := false }
    mobileNav := { fallbackHref := fallbackHref, mobile := true } }

/-- Shared search state from `useSearch()`. -/
structure SearchState where
  filter : String
deriving DecidableEq, Repr

/-- Embedding of `handleChange` in `DynamicSearchButton`: it runs
`setFilter(e.target.value ?? '')` with the input's current value. -/
def handleChange (targetValue : Option String) (st : SearchState) :
    SearchState :=
  { st with filter := targetValue.getD "" }

/-- Embedding of the `href` computation of `NavItem`
(`href={isPublished ? href : fallbackHref}`). -/
def navItemHref (isPublished : Bool) (href fallbackHref : String) : String :=
  if isPublished then href else fallbackHref

/-- Link target of a rendered nav item, as wired by `Nav`
(`isPublished={item.meta.published !== 'false'}`,
`fallbackHref={fallbackHref ?? ''}`). -/
def navLinkTarget (item : Page) (fallbackHref : Option String) : String :=
  navItemHref (decide (item.meta.published ≠ some "false")) item.href
    (fallbackHref.getD "")

/-- Concrete page whose title matches any empty filter but which carries no
`meta.group`. -/
def strayPage : Page :=
  { href := "/stray"
    meta := { title := some "alpha", description := none, group := none,
              published := none } }

/-- One-section navigation map holding only `strayPage`. -/
def strayNav : NavMap := [("docs", [strayPage])]

/-- Concrete geometry with the active item scrolled out of view above the
window: `scrollTop = 100 > offsetTop = 0`. -/
def overScrolled : NavScrollState :=
  { activeItem := some 0
    previousActiveItem := none
    geom := { scrollTop := 100, offsetTop := 0, containerHeight := 50,
              itemHeight := 10 } }

/-- Computed style of a plain, non-scrollable box. -/
def plainBoxStyle : ElemStyle :=
  { overflowX := "visible", overflowY := "visible", clientHeight := 10,
    scrollHeight := 10, clientWidth := 10, scrollWidth := 10 }

/-- A detached element: not `document.body`, not scrollable, null
`parentNode`. -/
def detachedDiv : Elem := .root plainBoxStyle false

/-- A plain element whose parent is `document.body`. -/
def underBodyDiv : Elem := .child plainBoxStyle false (.root plainBoxStyle true)

/-- An element inside a scrollable column which sits under
`document.body`. -/
def navColumnDiv : Elem :=
  .child plainBoxStyle false
    (.child { overflowX := "visible", overflowY := "auto", clientHeight := 10,
              scrollHeight := 20, clientWidth := 10, scrollWidth := 10 } false
      (.root plainBoxStyle true))

/-- A well-formed sidebar link entry. -/
def demoLink : LinkCfg := { url := some "/docs", icon := none, label := some "Docs" }

/-- A config whose `sidebar.links` is present and holds `demoLink`. -/
def demoSidebar : Option (Option (List (Option LinkCfg))) := some (some [some demoLink])

/-- Concrete groupless page used to test whitespace filtering. -/
def ghostPage : Page :=
  { href := "/ghost"
    meta := { title := some "notes", description := none, group := none,
              published := none } }

/-- One-section navigation map holding only `ghostPage`. -/
def ghostNav : NavMap := [("docs", [ghostPage])]

/-- Concrete grouped page. -/
def grovePage : Page :=
  { href := "/grove"
    meta := { title := some "widget", description := none, group := some "G",
              published := none } }

/-- One-section navigation map holding only `grovePage`. -/
def groveNav : NavMap := [("d", [grovePage])]

/-- Concrete page in group "A". -/
def dupePage : Page :=
  { href := "/x"
    meta := { title := some "x", description := none, group := some "A",
              published := none } }

/-- One-section navigation map holding only `dupePage`. -/
def dupeNav : NavMap := [("k", [dupePage])]

theorem mem_sift {l : List (Option String)} {s : String} :
    s ∈ sift l ↔ some s ∈ l ∧ s ≠ "" := by
  unfold sift
  rw [List.mem_filterMap]
  constructor
  · rintro ⟨o, ho, hf⟩
    rcases o with _ | t
    · simp at hf
    · by_cases ht : t = ""
      · simp [ht] at hf
      · simp only [ht, if_false, Option.some.injEq] at hf
        subst hf
        exact ⟨ho, ht⟩
  · rintro ⟨hs, hne⟩
    exact ⟨some s, hs, by simp [hne]⟩

theorem mem_uniqueAux {l seen : List String} {a : String} :
    a ∈ uniqueAux seen l ↔ a ∈ l ∧ a ∉ seen := by
  induction l generalizing seen with
  | nil => simp [uniqueAux]
  | cons b bs ih =>
      rw [uniqueAux]
      by_cases hb : b ∈ seen
      · rw [if_pos hb, ih]
        simp only [List.mem_cons]
        constructor
        · rintro ⟨hmem, hns⟩
          exact ⟨Or.inr hmem, hns⟩
        · rintro ⟨rfl | hmem, hns⟩
          · exact absurd hb hns
          · exact ⟨hmem, hns⟩
      · rw [if_neg hb]
        simp only [List.mem_cons, ih]
        constructor
        · rintro (rfl | ⟨hmem, hns⟩)
          · exact ⟨Or.inl rfl, hb⟩
          · exact ⟨Or.inr hmem, fun hc => hns (Or.inr hc)⟩
        · rintro ⟨rfl | hmem, hns⟩
          · exact Or.inl rfl
          · by_cases hab : a = b
            · exact Or.inl hab
            · exact Or.inr ⟨hmem, fun hc => hc.elim hab hns⟩

theorem mem_uniqueKeepFirst {l : List String} {a : String} :
    a ∈ uniqueKeepFirst l ↔ a ∈ l := by
  unfold uniqueKeepFirst
  rw [mem_uniqueAux]
  simp

theorem nodup_uniqueAux (l : List String) :
    ∀ seen : List String, (uniqueAux seen l).Nodup := by
  induction l with
  | nil => intro seen; simp [uniqueAux]
  | cons b bs ih =>
      intro seen
      rw [uniqueAux]
      by_cases hb : b ∈ seen
      · rw [if_pos hb]; exact ih seen
      · rw [if_neg hb]
        refine List.nodup_cons.mpr ⟨?_, ih (b :: seen)⟩
        intro hmem
        exact (mem_uniqueAux.mp hmem).2 (List.mem_cons_self _ _)

theorem nodup_uniqueKeepFirst (l : List String) : (uniqueKeepFirst l).Nodup :=
  nodup_uniqueAux l []

theorem hasSubList_nil (l : List Char) : hasSubList [] l = true := by
  cases l <;> simp [hasSubList, firstMatches]

theorem jsIncludes_empty (s : String) : jsIncludes s "" = true :=
  hasSubList_nil s.toList

theorem groupListed_of_mem_navGroups {order : Option (List String)}
    {filter : String} {n : NavMap} {g : String}
    (h : g ∈ navGroups order filter n) : GroupListed order g := by
  unfold navGroups at h
  rcases order with _ | ord
  · rw [mem_uniqueKeepFirst, mem_sift] at h
    exact h.2
  · exact (List.mem_filter.mp h).1

theorem exists_match_of_mem_navGroups {order : Option (List String)}
    {filter : String} {n : NavMap} {g : String}
    (h : g ∈ navGroups order filter n) :
    ∃ p ∈ matchPages filter n, p.meta.group = some g := by
  unfold navGroups at h
  rcases order with _ | ord
  · rw [mem_uniqueKeepFirst, mem_sift] at h
    obtain ⟨hmem, _⟩ := h
    rw [List.mem_map] at hmem
    obtain ⟨p, hp, hpg⟩ := hmem
    exact ⟨p, hp, hpg⟩
  · obtain ⟨_, hany⟩ := List.mem_filter.mp h
    rw [List.any_eq_true] at hany
    obtain ⟨p, hp, hpg⟩ := hany
    exact ⟨p, hp, beq_iff_eq.mp hpg⟩

theorem mem_navGroups_of {order : Option (List String)} {filter : String}
    {n : NavMap} {g : String} {p : Page}
    (hp : p ∈ matchPages filter n) (hg : p.meta.group = some g)
    (hlisted : GroupListed order g) : g ∈ navGroups order filter n := by
  unfold navGroups
  rcases order with _ | ord
  · rw [mem_uniqueKeepFirst, mem_sift]
    refine ⟨?_, hlisted⟩
    rw [List.mem_map]
    exact ⟨p, hp, hg⟩
  · rw [List.mem_filter]
    refine ⟨hlisted, ?_⟩
    rw [List.any_eq_true]
    exact ⟨p, hp, beq_iff_eq.mpr hg⟩

/-- Membership in the filtered navigation: a page is shown exactly when it
comes from the flattened map, matches the filter, and carries a group that
is listed for display. -/
theorem pageShown_filtered_iff (order : Option (List String)) (filter : String)
    (n : NavMap) (p : Page) :
    pageShown (filtered order filter n) p = true ↔
      (p ∈ allPages n ∧ matchesFilter filter p = true ∧
        ∃ g, p.meta.group = some g ∧ GroupListed order g) := by
  unfold pageShown filtered
  simp only [List.any_eq_true, List.mem_map, decide_eq_true_eq]
  constructor
  · rintro ⟨pr, ⟨g, hg, rfl⟩, q, hq, rfl⟩
    rw [List.mem_filter] at hq
    obtain ⟨hqm, hqg⟩ := hq
    rw [beq_iff_eq] at hqg
    unfold matchPages at hqm
    rw [List.mem_filter] at hqm
    exact ⟨hqm.1, hqm.2, g, hqg, groupListed_of_mem_navGroups hg⟩
  · rintro ⟨hall, hmatch, g, hgroup, hlisted⟩
    have hp : p ∈ matchPages filter n := by
      unfold matchPages
      rw [List.mem_filter]
      exact ⟨hall, hmatch⟩
    refine ⟨(g, (matchPages filter n).filter fun q => q.meta.group == some g),
      ⟨g, mem_navGroups_of hp hgroup hlisted, rfl⟩, p, ?_, rfl⟩
    rw [List.mem_filter]
    exact ⟨hp, beq_iff_eq.mpr hgroup⟩

theorem jsTrim_empty : jsTrim "" = "" := by decide

theorem jsToLower_empty : jsToLower "" = "" := by decide

theorem matchesFilter_of_trim_empty {f : String} (h : jsTrim f = "")
    (p : Page) : matchesFilter f p = true := by
  unfold matchesFilter
  rw [h, jsToLower_empty]
  exact jsIncludes_empty _

theorem matchPages_of_trim_empty {f : String} (h : jsTrim f = "")
    (n : NavMap) : matchPages f n = allPages n := by
  unfold matchPages
  exact List.filter_eq_self.mpr fun p _ => matchesFilter_of_trim_empty h p

theorem filtered_of_trim_empty {f : String} (h : jsTrim f = "")
    (order : Option (List String)) (n : NavMap) :
    filtered order f n = filtered order "" n := by
  have hmp : matchPages f n = matchPages "" n := by
    rw [matchPages_of_trim_empty h, matchPages_of_trim_empty jsTrim_empty]
  unfold filtered navGroups
  rw [hmp]

theorem navGroups_props {order : Option (List String)} {f : String}
    {n : NavMap}
    (h : order = none ∨
      ∃ ord, order = some ord ∧ ord.Nodup ∧ ∀ g ∈ ord, g ≠ "") :
    (navGroups order f n).Nodup ∧ ∀ g ∈ navGroups order f n, g ≠ "" := by
  rcases h with rfl | ⟨ord, rfl, hnd, htruthy⟩
  · exact ⟨nodup_uniqueKeepFirst _,
      fun g hg => groupListed_of_mem_navGroups hg⟩
  · refine ⟨hnd.filter _, fun g hg => htruthy g ?_⟩
    exact (List.mem_filter.mp hg).1

/-- The scroll effect never modifies the geometry: the comparison guard
fires on every run because the previous-item ref is assigned immediately
before it is compared. -/
theorem navScrollEffect_geom (s : NavScrollState) :
    (navScrollEffect s).geom = s.geom := by
  obtain ⟨act, prev, geom⟩ := s
  unfold navScrollEffect
  cases act with
  | none => rfl
  | some a => simp

theorem nscGo_ok_of_bodyInChain {e : Elem} (h : bodyInChain e = true) :
    ∃ r, nscGo e = Except.ok r ∧ firstStop e = some r ∧
      (r.isBody = true ∨ isScrollable r.style = true) := by
  induction e with
  | root st b =>
      have hb : b = true := h
      subst hb
      exact ⟨.root st true, by simp [nscGo, Elem.isBody],
        by simp [firstStop, Elem.isBody], Or.inl rfl⟩
  | child st b p ih =>
      cases hb : b with
      | true =>
          exact ⟨.child st true p, by simp [nscGo, Elem.isBody],
            by simp [firstStop, Elem.isBody], Or.inl rfl⟩
      | false =>
          have hp : bodyInChain p = true := by
            subst hb
            simpa [bodyInChain] using h
          cases hs : isScrollable st with
          | true =>
              exact ⟨.child st false p,
                by simp [nscGo, Elem.isBody, Elem.style, hs],
                by simp [firstStop, Elem.isBody, Elem.style, hs], Or.inr hs⟩
          | false =>
              obtain ⟨r, hr1, hr2, hr3⟩ := ih hp
              exact ⟨r, by simp [nscGo, Elem.isBody, Elem.style, hs, hr1],
                by simp [firstStop, Elem.isBody, Elem.style, hs, hr2], hr3⟩

theorem renderLinks_ok {pathname : String} {links : List (Option LinkCfg)}
    (h : ∀ l ∈ links, l ≠ none) :
    ∃ items, renderLinks pathname links = Except.ok items := by
  induction links with
  | nil => exact ⟨[], rfl⟩
  | cons l rest ih =>
      rcases l with _ | link
      · exact absurd rfl (h none (List.mem_cons_self _ _))
      · obtain ⟨items, hitems⟩ := ih fun x hx => h x (List.mem_cons_of_mem _ hx)
        exact ⟨mkTopItem pathname link :: items,
          by simp only [renderLinks, hitems]⟩

/-- Claim C1 (counterexample): `strayPage` matches the empty filter and is
in the flattened nav, yet the filtered navigation does not contain it — its
`meta.group` is missing, so it lands under no group of the result. -/
theorem strayPage_matches_but_is_hidden :
    strayPage ∈ allPages strayNav ∧ matchesFilter "" strayPage = true ∧
      pageShown (filtered none "" strayNav) strayPage = false := by
  decide

/-- Claim C1 (amended): the filtered navigation contains exactly those pages
whose truthy title/description parts, joined with a single space and
lowercased, contain the trimmed lowercased filter as a substring AND whose
`meta.group` is truthy (and, when `config.sidebar.order` is set, listed
there); all other pages are excluded. -/
theorem filtered_membership (order : Option (List String)) (filter : String)
    (n : NavMap) (p : Page) :
    pageShown (filtered order filter n) p = true ↔
      (p ∈ allPages n ∧ matchesFilter filter p = true ∧
        ∃ g, p.meta.group = some g ∧ GroupListed order g) :=
  pageShown_filtered_iff order filter n p

/-- Claim C2 (code bug evidence): at `overScrolled` the active item is
outside the visible window (`scrollTop = 100 > offsetTop = 0`) and the
claimed centering target is `-20`, yet the effect leaves `scrollTop` at
`100`: the source assigns `previousActiveItemRef.current` from
`activeItemRef.current` immediately before comparing the two refs, so the
guard always returns early and the scroll code below it is unreachable. -/
theorem scroll_effect_never_centers :
    outOfView overScrolled.geom ∧
      claimedCenteredTop overScrolled.geom = -20 ∧
      (navScrollEffect overScrolled).geom.scrollTop = 100 := by
  refine ⟨?_, ?_, ?_⟩
  · unfold outOfView overScrolled
    norm_num
  · unfold claimedCenteredTop overScrolled
    norm_num
  · unfold navScrollEffect overScrolled
    norm_num

/-- Claim C3: the drawer dialog is open exactly when `navIsOpen` is true;
dismissing the dialog and clicking the close button both invoke
`setNavIsOpen` with `false` and are no-ops when no setter is provided; the
desktop `Nav` props do not depend on `navIsOpen`. -/
theorem sidebarLayout_dialog_behaviour (σ : Type) (navIsOpen navIsOpen' : Bool)
    (f : Bool → σ → σ) (fb : Option String) (st : σ) :
    (sidebarLayout σ navIsOpen (some f) fb).dialogOpen = navIsOpen ∧
      (sidebarLayout σ navIsOpen none fb).dialogOpen = navIsOpen ∧
      (sidebarLayout σ navIsOpen (some f) fb).dialogOnClose st = f false st ∧
      (sidebarLayout σ navIsOpen (some f) fb).closeButtonOnClick st = f false st ∧
      (sidebarLayout σ navIsOpen none fb).dialogOnClose st = st ∧
      (sidebarLayout σ navIsOpen none fb).closeButtonOnClick st = st ∧
      (sidebarLayout σ navIsOpen (some f) fb).desktopNav =
        (sidebarLayout σ navIsOpen' (some f) fb).desktopNav ∧
      (sidebarLayout σ navIsOpen none fb).desktopNav =
        (sidebarLayout σ navIsOpen' none fb).desktopNav :=
  ⟨rfl, rfl, rfl, rfl, rfl, rfl, rfl, rfl⟩

/-- Claim C4 (counterexample): `nearestScrollableContainer` on a detached,
non-scrollable element throws — the walk falls off the chain (null
`parentNode`, undefined `host`) and the next `getComputedStyle(undefined)`
call raises a TypeError. -/
theorem nearestScrollableContainer_throws_detached :
    nearestScrollableContainer (some detachedDiv) =
      Except.error "TypeError: getComputedStyle requires an Element" := rfl

/-- Claim C4 (amended): the module functions complete without throwing on
the inputs the component actually feeds them — `nearestScrollableContainer`
on any element whose self-or-ancestor chain reaches `document.body`, and
`TopLevelNav` whenever `config.sidebar` is absent or its `links` array is
present with no null entries; outside these conditions a TypeError can
occur. -/
theorem module_no_throw_under_assumptions (e : Elem)
    (sidebar : Option (Option (List (Option LinkCfg)))) (pathname : String)
    (h1 : bodyInChain e = true)
    (h2 : sidebar = none ∨
      ∃ links, sidebar = some (some links) ∧ ∀ l ∈ links, l ≠ none) :
    (∃ r, nearestScrollableContainer (some e) = Except.ok r) ∧
      ∃ items, topLevelNav sidebar pathname = Except.ok items := by
  obtain ⟨r, hr, -, -⟩ := nscGo_ok_of_bodyInChain h1
  refine ⟨⟨r, hr⟩, ?_⟩
  rcases h2 with rfl | ⟨links, rfl, hl⟩
  · exact ⟨[], rfl⟩
  · exact renderLinks_ok hl

/-- Witness for the amended C4 theorem at a concrete element under
`document.body` and a concrete well-formed sidebar config. -/
theorem module_no_throw_witness :
    bodyInChain underBodyDiv = true ∧
      ((∃ r, nearestScrollableContainer (some underBodyDiv) = Except.ok r) ∧
        ∃ items, topLevelNav demoSidebar "/docs" = Except.ok items) :=
  ⟨by decide,
    module_no_throw_under_assumptions underBodyDiv demoSidebar "/docs"
      (by decide) (Or.inr ⟨[some demoLink], rfl, by decide⟩)⟩

/-- Claim C5: every change event on the quick-search input sets the shared
filter to exactly the input's current value, with the empty string
substituted when the value is nullish. -/
theorem handleChange_sets_filter (v : String) (st st' : SearchState) :
    (handleChange (some v) st).filter = v ∧
      (handleChange none st').filter = "" :=
  ⟨rfl, rfl⟩

/-- Claim C6: for every element whose self-or-ancestor chain reaches
`document.body`, the ancestor walk terminates without throwing and returns
the first self-or-ancestor at which the walk stops — the first scrollable
node, or `document.body` when no node below it is scrollable. -/
theorem nsc_terminates_for_body_descendants (e : Elem)
    (h : bodyInChain e = true) :
    ∃ r, nearestScrollableContainer (some e) = Except.ok r ∧
      firstStop e = some r ∧
      (r.isBody = true ∨ isScrollable r.style = true) :=
  nscGo_ok_of_bodyInChain h

/-- Witness for C6 at a concrete element inside a scrollable column under
`document.body`. -/
theorem nsc_terminates_witness :
    bodyInChain navColumnDiv = true ∧
      ∃ r, nearestScrollableContainer (some navColumnDiv) = Except.ok r ∧
        firstStop navColumnDiv = some r ∧
        (r.isBody = true ∨ isScrollable r.style = true) :=
  ⟨by decide, nsc_terminates_for_body_descendants navColumnDiv (by decide)⟩

/-- Claim C8 (counterexample): with the whitespace-only filter " ",
`ghostPage` is in the flattened nav but absent from the filtered result —
whitespace filtering is not the identity on the page set, because pages
without a truthy group are never shown. -/
theorem whitespace_filter_hides_groupless_page :
    ghostPage ∈ allPages ghostNav ∧
      pageShown (filtered none " " ghostNav) ghostPage = false := by
  decide

/-- Claim C8 (amended): a filter that trims to the empty string yields
exactly the result of the empty filter: no page is filtered out by the text
match, and the result contains precisely the pages with a truthy (and, when
`config.sidebar.order` is set, listed) group, grouped as in the unfiltered
rendering. -/
theorem whitespace_filter_same_as_empty (order : Option (List String))
    (f : String) (n : NavMap) (h : jsTrim f = "") :
    filtered order f n = filtered order "" n ∧
      ∀ p, pageShown (filtered order f n) p = true ↔
        (p ∈ allPages n ∧ ∃ g, p.meta.group = some g ∧ GroupListed order g) := by
  refine ⟨filtered_of_trim_empty h order n, fun p => ?_⟩
  rw [pageShown_filtered_iff]
  constructor
  · rintro ⟨h1, -, h3⟩
    exact ⟨h1, h3⟩
  · rintro ⟨h1, h3⟩
    exact ⟨h1, matchesFilter_of_trim_empty h p, h3⟩

/-- Witness for the amended C8 theorem at the whitespace filter "  " and a
concrete one-page map. -/
theorem whitespace_filter_same_as_empty_witness :
    jsTrim "  " = "" ∧
      (filtered none "  " groveNav = filtered none "" groveNav ∧
        ∀ p, pageShown (filtered none "  " groveNav) p = true ↔
          (p ∈ allPages groveNav ∧
            ∃ g, p.meta.group = some g ∧ GroupListed none g)) :=
  ⟨by decide, whitespace_filter_same_as_empty none "  " groveNav (by decide)⟩

/-- Claim C9 (counterexample): when `config.sidebar.order` lists "A" twice,
the groups of the filtered result are `["A", "A"]` — not duplicate-free as
the claim states. -/
theorem filtered_groups_duplicated_by_order :
    ¬ (filtered (some ["A", "A"]) "" dupeNav).groups.Nodup := by
  decide

/-- Claim C9 (amended): in every result of `filtered`, unconditionally,
every listed group appears in the pages record, and the pages recorded
under a group `g` are exactly the matching pages whose `meta.group` equals
`g` and are nonempty (so the empty-group heading branch is unreachable);
the list of groups is moreover duplicate-free with only truthy names
provided `config.sidebar.order` is absent, or is itself duplicate-free
with only truthy entries. -/
theorem filtered_group_invariants (order : Option (List String)) (f : String)
    (n : NavMap) :
    (∀ g ∈ (filtered order f n).groups,
      (g, (matchPages f n).filter fun p => p.meta.group == some g) ∈
        (filtered order f n).pages) ∧
      (∀ pr ∈ (filtered order f n).pages,
        pr.1 ∈ (filtered order f n).groups ∧
        pr.2 = ((matchPages f n).filter fun p => p.meta.group == some pr.1) ∧
        pr.2 ≠ []) ∧
      ((order = none ∨
          ∃ ord, order = some ord ∧ ord.Nodup ∧ ∀ g ∈ ord, g ≠ "") →
        (filtered order f n).groups.Nodup ∧
          ∀ g ∈ (filtered order f n).groups, g ≠ "") := by
  refine ⟨fun g hg => List.mem_map.mpr ⟨g, hg, rfl⟩, fun pr hpr => ?_,
    fun h => navGroups_props h⟩
  obtain ⟨g, hg, rfl⟩ := List.mem_map.mp hpr
  obtain ⟨p, hp, hpg⟩ := exists_match_of_mem_navGroups hg
  refine ⟨hg, rfl, ?_⟩
  exact List.ne_nil_of_mem (List.mem_filter.mpr ⟨hp, beq_iff_eq.mpr hpg⟩)

/-- Witness for the amended C9 theorem at a concrete one-page map: the
unconditional conjuncts instantiated at the duplicate order `["A", "A"]`
itself, and the conditional conjunct discharged at the absent order. -/
theorem filtered_group_invariants_witness :
    (∀ g ∈ (filtered (some ["A", "A"]) "" dupeNav).groups,
      (g, (matchPages "" dupeNav).filter fun p => p.meta.group == some g) ∈
        (filtered (some ["A", "A"]) "" dupeNav).pages) ∧
      (∀ pr ∈ (filtered (some ["A", "A"]) "" dupeNav).pages,
        pr.1 ∈ (filtered (some ["A", "A"]) "" dupeNav).groups ∧
        pr.2 = ((matchPages "" dupeNav).filter
          fun p => p.meta.group == some pr.1) ∧
        pr.2 ≠ []) ∧
      ((filtered none "" dupeNav).groups.Nodup ∧
        ∀ g ∈ (filtered none "" dupeNav).groups, g ≠ "") :=
  ⟨(filtered_group_invariants (some ["A", "A"]) "" dupeNav).1,
    (filtered_group_invariants (some ["A", "A"]) "" dupeNav).2.1,
    (filtered_group_invariants none "" dupeNav).2.2 (Or.inl rfl)⟩

/-- Claim C10: the link target of a rendered nav item is the page's own
href unless `meta.published` is the string "false", in which case it is the
layout's `fallbackHref`, defaulting to the empty string when absent. -/
theorem navLinkTarget_eq (item : Page) (fb : Option String) :
    navLinkTarget item fb =
      if item.meta.published = some "false" then fb.getD "" else item.href := by
  unfold navLinkTarget navItemHref
  by_cases h : item.meta.published = some "false" <;> simp [h]

end Sidebar
